import Mathlib

/-!
Shallow embedding of the buffer-cache repository (src/src/buffer.rs,
src/src/hashing.rs, src/src/disk.rs).

Modelling conventions:
- `u64` values become `Nat`; 64-bit wrapping arithmetic is made explicit with
  `% 2 ^ 64` where the source performs a `u64` addition that may overflow.
- `Rc<RefCell<BufferHeader>>` sharing is modelled with an arena: headers live in
  a `List BufferHeader` (the arena) and every `Rc` becomes the `Nat` index of
  its slot, so two clones of one `Rc` are two copies of the same index.
- Operations that can panic in Rust (out-of-bounds `Vec` indexing, `%` by zero)
  return `Except String` or `Option`, with `error`/`none` marking the panic.
-/

namespace BufferCache

/-- Possible states of buffers, from `enum BufferStatus` in buffer.rs. -/
inductive BufferStatus
  | Empty
  | Locked
  | Unlocked
  | DelayedWriteToDisk
deriving DecidableEq

/-- Buffer header metadata, from `struct BufferHeader` in buffer.rs.
The payload `data : Option<Box<String>>` becomes `Option String`. -/
structure BufferHeader where
  device_num : Nat
  block_num : Nat
  status : BufferStatus
  data : Option String
deriving DecidableEq

/-- The `Default` impl for `BufferHeader`: empty, no data, numbers zero. -/
def BufferHeader.default : BufferHeader :=
  { device_num := 0, block_num := 0, status := BufferStatus.Empty, data := none }

/-- From `BufferHeader::get_nums`: returns `(device_num, block_num)`. -/
def BufferHeader.get_nums (h : BufferHeader) : Nat × Nat :=
  (h.device_num, h.block_num)

/-! ## FreeList (buffer.rs lines 70-101)

`FreeList.my_list : Vec<Rc<RefCell<BufferHeader>>>` becomes `List Nat`
(slot indices into the arena). -/

/-- From `FreeList::push`: `self.my_list.push(buffer)` appends at the back. -/
def FreeList.push (l : List Nat) (slot : Nat) : List Nat :=
  l ++ [slot]

/-- From `FreeList::pop`: `self.my_list.pop()`, i.e. `Vec::pop`, which removes
and returns the LAST element of the vector (or `None` when empty). -/
def FreeList.pop (l : List Nat) : Option (Nat × List Nat) :=
  match l.reverse with
  | [] => none
  | last :: rest => some (last, rest.reverse)

/-- From `FreeList::remove`: scan in order for the first entry whose
`get_nums()` equals `buffer_nums`, remove it and return; no-op if absent. -/
def FreeList.remove (arena : List BufferHeader) (buffer_nums : Nat × Nat) :
    List Nat → List Nat
  | [] => []
  | slot :: rest =>
    if (arena.getD slot BufferHeader.default).get_nums = buffer_nums then rest
    else slot :: FreeList.remove arena buffer_nums rest

/-- From `FreeList::is_empty`: `self.my_list.len() == 0`. -/
def FreeList.is_empty (l : List Nat) : Bool :=
  l.length == 0

/-! ## Hasher (hashing.rs)

`BufferHasher::write` sums the input BYTES into `message`, then stores
`message % self.positions`; `finish` returns that stored value. `%` with
`positions = 0` is a Rust panic, modelled as `none`. -/

/-- Big-endian byte decomposition of a `u64`, from `u64::to_be_bytes` applied
to a value already reduced mod `2 ^ 64`. -/
def u64_to_be_bytes (n : Nat) : List Nat :=
  [n / 256 ^ 7 % 256, n / 256 ^ 6 % 256, n / 256 ^ 5 % 256, n / 256 ^ 4 % 256,
   n / 256 ^ 3 % 256, n / 256 ^ 2 % 256, n / 256 ^ 1 % 256, n % 256]

/-- From `impl Hasher for BufferHasher`: `write` folds `message += byte` over
the bytes starting from 0 and sets `value = message % positions`; `finish`
returns `value`. We fuse write-then-finish into one function. -/
def BufferHasher.write (positions : Nat) (bytes : List Nat) : Option Nat :=
  if positions = 0 then none
  else some ((bytes.foldl (fun message byte => message + byte) 0) % positions)

/-! ## BufferHashQueue (buffer.rs lines 107-161) -/

/-- From `struct BufferHashQueue`. `my_queues : Vec<Vec<Rc<RefCell<_>>>>`
becomes `List (List Nat)` of arena slots. The hasher `positions` field always
equals `number_of_queues`, so we keep only the latter. -/
structure BufferHashQueue where
  number_of_queues : Nat
  my_queues : List (List Nat)
deriving DecidableEq

/-- From `BufferHashQueue::new`: `Vec::with_capacity(n)` allocates capacity
but produces a vector of LENGTH ZERO, so `my_queues` starts empty. -/
def BufferHashQueue.new (number_of_queues : Nat) : BufferHashQueue :=
  { number_of_queues := number_of_queues, my_queues := [] }

/-- From `BufferHashQueue::hash_nums`: `sum = block_num + device_num` (u64,
wrapping mod `2 ^ 64`), then write the big-endian bytes of `sum` into the
hasher and finish. -/
def BufferHashQueue.hash_nums (q : BufferHashQueue) (device_num block_num : Nat) :
    Option Nat :=
  let sum := (block_num + device_num) % 2 ^ 64
  BufferHasher.write q.number_of_queues (u64_to_be_bytes sum)

/-- The bucket scan inside `BufferHashQueue::get_buffer`: return the first
slot whose header satisfies the source's comparison
`borrowed_header.block_num == device_num && borrowed_header.block_num == block_num`
(the source compares `block_num` with `device_num`, as written). -/
def queue_search (arena : List BufferHeader) (device_num block_num : Nat) :
    List Nat → Option Nat
  | [] => none
  | slot :: rest =>
    let h := arena.getD slot BufferHeader.default
    if h.block_num = device_num ∧ h.block_num = block_num then some slot
    else queue_search arena device_num block_num rest

/-- From `BufferHashQueue::get_buffer`: hash the pair, index
`self.my_queues[index]` (a panic when the index is out of bounds, modelled
as `Except.error`), scan that bucket. -/
def BufferHashQueue.get_buffer (arena : List BufferHeader) (q : BufferHashQueue)
    (device_num block_num : Nat) : Except String (Option Nat) :=
  match q.hash_nums device_num block_num with
  | none => Except.error "attempt to calculate the remainder with a divisor of zero"
  | some index =>
    match q.my_queues.get? index with
    | none => Except.error "index out of bounds"
    | some queue_to_search =>
      Except.ok (queue_search arena device_num block_num queue_to_search)

/-- From `BufferHashQueue::add_buffer`: hash the header's own numbers and
push the slot onto `self.my_queues[index]` (panic when out of bounds). -/
def BufferHashQueue.add_buffer (arena : List BufferHeader) (q : BufferHashQueue)
    (slot : Nat) : Except String BufferHashQueue :=
  let h := arena.getD slot BufferHeader.default
  match q.hash_nums h.device_num h.block_num with
  | none => Except.error "attempt to calculate the remainder with a divisor of zero"
  | some index =>
    if index < q.my_queues.length then
      Except.ok { q with
        my_queues := q.my_queues.set index ((q.my_queues.getD index []) ++ [slot]) }
    else Except.error "index out of bounds"

/-! ## DiskDriver (disk.rs) -/

/-- From `DiskDriver::write`: `self.data.push_str(data)` appends to the mock
disk's string. It is defined here because the spec names it as the flush
target; note that nothing in `get_block` ever calls it. -/
def DiskDriver.write (disk_data new_data : String) : String :=
  disk_data ++ new_data

/-! ## BufferSystem (buffer.rs lines 166-218) -/

/-- From `struct BufferSystem`, with the arena holding the actual headers and
the mock disk's accumulated string inlined. -/
structure BufferSystem where
  arena : List BufferHeader
  free_list : List Nat
  hash_queue : BufferHashQueue
  disk_data : String
deriving DecidableEq

/-- From `BufferSystem::new`: the source builds the free list with
`vec![Rc::new(BufferHeader::default()); number_of_buffers]`, which evaluates
`Rc::new` ONCE and clones the pointer, so all `number_of_buffers` entries
alias one single header allocation: arena slot 0, listed
`number_of_buffers` times. -/
def BufferSystem.new (number_of_queues number_of_buffers : Nat) : BufferSystem :=
  { arena := [BufferHeader.default]
  , free_list := List.replicate number_of_buffers 0
  , hash_queue := BufferHashQueue.new number_of_queues
  , disk_data := "" }

/-- Outcome of one iteration of the `loop` in `BufferSystem::get_block`. -/
inductive IterOut
  | ret (slot : Nat) (s : BufferSystem)
  | panicked (msg : String)
  | sleeps (event : String)
  | again (s : BufferSystem)
deriving DecidableEq

/-- One iteration of the `loop` in `BufferSystem::get_block` (buffer.rs
lines 194-217), as written:
- hash-queue hit whose header is Locked: `sleep("Buffer becomes free")` and
  retry (`sleeps`);
- other hit: set the header's status to Locked, `free_list.remove(get_nums())`,
  return the buffer (`ret`);
- miss with empty free list: `sleep("Any buffer becomes free")` and retry;
- miss with non-empty free list: `free_list.remove((device_num, block_num))`
  and loop again with no return (`again`). -/
def BufferSystem.get_block_iter (s : BufferSystem) (device_num block_num : Nat) :
    IterOut :=
  match BufferHashQueue.get_buffer s.arena s.hash_queue device_num block_num with
  | Except.error e => IterOut.panicked e
  | Except.ok (some slot) =>
    let h := s.arena.getD slot BufferHeader.default
    match h.status with
    | BufferStatus.Locked => IterOut.sleeps "Buffer becomes free"
    | _ =>
      let arena2 := s.arena.set slot { h with status := BufferStatus.Locked }
      let fl := FreeList.remove arena2 h.get_nums s.free_list
      IterOut.ret slot { s with arena := arena2, free_list := fl }
  | Except.ok none =>
    if FreeList.is_empty s.free_list then IterOut.sleeps "Any buffer becomes free"
    else IterOut.again
      { s with free_list := FreeList.remove s.arena (device_num, block_num) s.free_list }

/-- Result of running `get_block` under a fuel bound in a single-caller
execution: `blocked` marks a `sleep` that no other caller can ever end. -/
inductive GetBlockOutcome
  | returned (slot : Nat) (s : BufferSystem)
  | panicked (msg : String)
  | blocked (event : String)
  | outOfFuel
deriving DecidableEq

/-- `BufferSystem::get_block` as a fuel-bounded single-caller execution of the
source's `loop`: a `sleeps` iteration becomes `blocked` because with a single
caller nobody ever issues the matching wake-up. -/
def BufferSystem.get_block : Nat → BufferSystem → Nat → Nat → GetBlockOutcome
  | 0, _, _, _ => GetBlockOutcome.outOfFuel
  | fuel + 1, s, device_num, block_num =>
    match s.get_block_iter device_num block_num with
    | IterOut.ret slot s2 => GetBlockOutcome.returned slot s2
    | IterOut.panicked e => GetBlockOutcome.panicked e
    | IterOut.sleeps e => GetBlockOutcome.blocked e
    | IterOut.again s2 => BufferSystem.get_block fuel s2 device_num block_num

/-- Modelled from the spec: the release path (`brelse`, spec section 4.6) is
absent from the source snapshot — spec section 9 records that the source
implements only the acquire path. Per the spec it sets the header's status to
`Unlocked` when clean and to `DelayedWrite` when dirty, then appends the
header to the Free List; the precondition that the header is `Locked` is
enforced where this is used (the `Step` relation). -/
def BufferSystem.release (s : BufferSystem) (slot : Nat) (dirty : Bool) :
    BufferSystem :=
  let h := s.arena.getD slot BufferHeader.default
  { s with
    arena := s.arena.set slot
      { h with status := if dirty then BufferStatus.DelayedWriteToDisk
                         else BufferStatus.Unlocked }
    free_list := FreeList.push s.free_list slot }

/-- Atomic state transitions available to any interleaving of callers: one
mutating iteration of `get_block` (a hit that returns, or a miss-path
free-list removal), or one spec-modelled `release` of a Locked header.
Sleeping iterations do not mutate state and need no rule. -/
inductive Step : BufferSystem → BufferSystem → Prop
  | acq_ret (s : BufferSystem) (device_num block_num slot : Nat) (s2 : BufferSystem) :
      s.get_block_iter device_num block_num = IterOut.ret slot s2 → Step s s2
  | acq_again (s : BufferSystem) (device_num block_num : Nat) (s2 : BufferSystem) :
      s.get_block_iter device_num block_num = IterOut.again s2 → Step s s2
  | rel (s : BufferSystem) (slot : Nat) (dirty : Bool) :
      (s.arena.getD slot BufferHeader.default).status = BufferStatus.Locked →
      Step s (s.release slot dirty)

/-- States reachable from a freshly constructed system by acquire iterations
and releases. -/
inductive Reachable : BufferSystem → Prop
  | init (number_of_queues number_of_buffers : Nat) :
      Reachable (BufferSystem.new number_of_queues number_of_buffers)
  | step (s s2 : BufferSystem) : Reachable s → Step s s2 → Reachable s2

end BufferCache

namespace BufferCache

/-! ## Helper lemmas -/

theorem list_getD_set_self {α : Type} (l : List α) (i : Nat) (a d : α)
    (h : i < l.length) : (l.set i a).getD i d = a := by
  induction l generalizing i with
  | nil => simp at h
  | cons x xs ih =>
    cases i with
    | zero => rfl
    | succ n =>
      have hn : n < xs.length := by simpa using h
      simpa [List.set, List.getD] using ih n hn

theorem list_getD_set_ne {α : Type} (l : List α) (i j : Nat) (a d : α)
    (h : i ≠ j) : (l.set i a).getD j d = l.getD j d := by
  induction l generalizing i j with
  | nil => simp [List.set]
  | cons x xs ih =>
    cases i with
    | zero =>
      cases j with
      | zero => exact absurd rfl h
      | succ m => rfl
    | succ n =>
      cases j with
      | zero => rfl
      | succ m =>
        have hnm : n ≠ m := fun hc => h (by rw [hc])
        simpa [List.set, List.getD] using ih n m hnm

theorem list_getD_of_le {α : Type} (l : List α) (i : Nat) (d : α)
    (h : l.length ≤ i) : l.getD i d = d := by
  induction l generalizing i with
  | nil => cases i <;> rfl
  | cons x xs ih =>
    cases i with
    | zero => simp at h
    | succ n =>
      have hn : xs.length ≤ n := by simpa using h
      simpa [List.getD] using ih n hn

theorem get_buffer_error_of_no_queues (arena : List BufferHeader)
    (q : BufferHashQueue) (hq : q.my_queues = []) (device_num block_num : Nat) :
    ∃ e, BufferHashQueue.get_buffer arena q device_num block_num = Except.error e := by
  unfold BufferHashQueue.get_buffer
  cases hh : q.hash_nums device_num block_num with
  | none => exact ⟨_, rfl⟩
  | some index =>
    rw [hq]
    exact ⟨_, rfl⟩

theorem get_block_iter_panicked_of_no_queues (s : BufferSystem)
    (hq : s.hash_queue.my_queues = []) (device_num block_num : Nat) :
    ∃ e, s.get_block_iter device_num block_num = IterOut.panicked e := by
  obtain ⟨e, he⟩ := get_buffer_error_of_no_queues s.arena s.hash_queue hq
    device_num block_num
  refine ⟨e, ?_⟩
  unfold BufferSystem.get_block_iter
  rw [he]

end BufferCache

namespace BufferCache

/-! ## Invariant development for the reachable-state claim -/

/-- No slot on the free list holds a Locked header. -/
def NoLockedOnFreeList (s : BufferSystem) : Prop :=
  ∀ slot ∈ s.free_list,
    (s.arena.getD slot BufferHeader.default).status ≠ BufferStatus.Locked

/-- Strengthened inductive invariant: the bucket vector stays empty (no step
ever grows it), and no free-list slot is Locked. -/
def StrongInv (s : BufferSystem) : Prop :=
  s.hash_queue.my_queues = [] ∧ NoLockedOnFreeList s

theorem strong_inv_of_reachable (s : BufferSystem) (h : Reachable s) :
    StrongInv s := by
  induction h with
  | init nq nb =>
    refine ⟨rfl, ?_⟩
    intro slot hm
    have h0 : slot = 0 := List.eq_of_mem_replicate hm
    subst h0
    intro hc
    cases hc
  | step s s2 hr hstep ih =>
    obtain ⟨hq, hinv⟩ := ih
    cases hstep with
    | acq_ret device_num block_num slot s3 heq =>
      exfalso
      obtain ⟨e, he⟩ := get_block_iter_panicked_of_no_queues s hq device_num block_num
      rw [he] at heq
      cases heq
    | acq_again device_num block_num s3 heq =>
      exfalso
      obtain ⟨e, he⟩ := get_block_iter_panicked_of_no_queues s hq device_num block_num
      rw [he] at heq
      cases heq
    | rel slot dirty hlock =>
      have hslot : slot < s.arena.length := by
        by_contra hge
        have : (s.arena.getD slot BufferHeader.default) = BufferHeader.default :=
          list_getD_of_le s.arena slot BufferHeader.default (Nat.le_of_not_lt hge)
        rw [this] at hlock
        cases hlock
      constructor
      · exact hq
      · intro m hm
        have hm2 : m ∈ s.free_list ∨ m = slot := by
          rcases List.mem_append.mp hm with h1 | h1
          · exact Or.inl h1
          · exact Or.inr (List.mem_singleton.mp h1)
        by_cases hms : m = slot
        · subst hms
          rw [show (BufferSystem.release s m dirty).arena =
                s.arena.set m
                  { s.arena.getD m BufferHeader.default with
                    status := if dirty then BufferStatus.DelayedWriteToDisk
                              else BufferStatus.Unlocked } from rfl]
          rw [list_getD_set_self s.arena m _ BufferHeader.default hslot]
          cases dirty <;> intro hc <;> cases hc
        · have hmem : m ∈ s.free_list := by
            rcases hm2 with h1 | h1
            · exact h1
            · exact absurd h1 hms
          rw [show (BufferSystem.release s slot dirty).arena =
                s.arena.set slot
                  { s.arena.getD slot BufferHeader.default with
                    status := if dirty then BufferStatus.DelayedWriteToDisk
                              else BufferStatus.Unlocked } from rfl]
          rw [list_getD_set_ne s.arena slot m _ BufferHeader.default
            (fun hc => hms hc.symm)]
          exact hinv m hmem

/-! ## Claim theorems -/

/-- C1: the claim says a miss with a non-empty Free List pops the LRU header,
re-keys it, indexes it and returns it Locked. On the code, the very first
lookup of the miss path panics: `BufferHashQueue::new` leaves `my_queues` at
length zero, so `get_block(5, 7)` on a fresh one-buffer system (whose free
list is non-empty) evaluates to a panic, not to a returned header. -/
theorem C1_miss_with_nonempty_free_list_panics :
    (BufferSystem.new 1 1).free_list = [0] ∧
    BufferSystem.get_block 5 (BufferSystem.new 1 1) 5 7 =
      GetBlockOutcome.panicked "index out of bounds" :=
  ⟨rfl, rfl⟩

theorem get_block_succ_panics (fuel : Nat) :
    BufferSystem.get_block (fuel + 1) (BufferSystem.new 1 1) 5 7 =
      GetBlockOutcome.panicked "index out of bounds" := rfl

/-- C2: the claim says a single-caller acquire with a non-empty Free List
always terminates and returns a header. On the code it never does: for every
fuel bound the call `get_block(5, 7)` on a fresh one-buffer system panics
(out-of-bounds bucket indexing) instead of returning. -/
theorem C2_acquire_never_returns (fuel slot : Nat) (s2 : BufferSystem) :
    BufferSystem.get_block (fuel + 1) (BufferSystem.new 1 1) 5 7 ≠
      GetBlockOutcome.returned slot s2 := by
  rw [get_block_succ_panics fuel]
  intro hc
  cases hc

/-- Arena and bucket layout for the lookup counterexample: one header with
identity (device 1, block 2), correctly placed in its hash bucket. -/
def C3_arena : List BufferHeader :=
  [{ device_num := 1, block_num := 2, status := BufferStatus.Unlocked, data := none }]

def C3_queue : BufferHashQueue :=
  { number_of_queues := 1, my_queues := [[0]] }

/-- C3: the claim says lookup returns the header exactly when the target
bucket holds a header with the looked-up (device, block) pair. In the code,
`get_buffer` compares `borrowed_header.block_num == device_num` (a typo for
`device_num == device_num`), so the bucket for (1, 2) contains the exact
matching header yet lookup returns `None`. -/
theorem C3_lookup_misses_exact_match :
    BufferHashQueue.hash_nums C3_queue 1 2 = some 0 ∧
    C3_queue.my_queues.getD 0 [] = [0] ∧
    (C3_arena.getD 0 BufferHeader.default).get_nums = (1, 2) ∧
    BufferHashQueue.get_buffer C3_arena C3_queue 1 2 = Except.ok none :=
  ⟨rfl, rfl, rfl, rfl⟩

/-- C4: the claim says pop removes the least-recently-released member.
The code's `FreeList::pop` is `Vec::pop`, which removes the BACK of the
vector: after pushing slot 0 then slot 1, pop returns slot 1 (the
most-recently-released), not slot 0. -/
theorem C4_pop_returns_newest_not_oldest :
    FreeList.pop (FreeList.push (FreeList.push [] 0) 1) = some (1, [0]) :=
  rfl

/-- C5: the claim says construction fills the Free List with N pairwise
distinct Empty headers and no two entries ever share a slot. The code builds
the list with `vec![Rc::new(BufferHeader::default()); N]`, which clones one
`Rc`, so with N = 2 the pool holds a single header allocation and both
free-list entries refer to that same slot 0 (each is Empty, as claimed). -/
theorem C5_free_list_aliases_single_header :
    (BufferSystem.new 1 2).free_list = [0, 0] ∧
    (BufferSystem.new 1 2).arena.length = 1 ∧
    ((BufferSystem.new 1 2).arena.getD 0 BufferHeader.default).status =
      BufferStatus.Empty :=
  ⟨rfl, rfl, rfl⟩

/-- C6: in every state reachable by acquire iterations and (spec-modelled)
releases from a fresh system, no slot on the Free List holds a Locked
header. -/
theorem C6_no_locked_header_on_free_list (s : BufferSystem) (h : Reachable s)
    (slot : Nat) (hm : slot ∈ s.free_list) :
    (s.arena.getD slot BufferHeader.default).status ≠ BufferStatus.Locked :=
  (strong_inv_of_reachable s h).2 slot hm

theorem C6_witness :
    ((BufferSystem.new 1 2).arena.getD 0 BufferHeader.default).status ≠
      BufferStatus.Locked :=
  C6_no_locked_header_on_free_list (BufferSystem.new 1 2) (Reachable.init 1 2)
    0 (by decide)

end BufferCache

namespace BufferCache

/-- A state with a single dirty (DelayedWrite) header as the only Free List
member — the LRU eviction victim the claim talks about — and a well-formed
one-bucket hash index that does not contain the requested identity. -/
def C7_state : BufferSystem :=
  { arena := [{ device_num := 1, block_num := 2,
                status := BufferStatus.DelayedWriteToDisk, data := some "dirty" }]
  , free_list := [0]
  , hash_queue := { number_of_queues := 1, my_queues := [[]] }
  , disk_data := "" }

theorem C7_iter_again : C7_state.get_block_iter 3 4 = IterOut.again C7_state :=
  rfl

theorem C7_get_block_loops (fuel : Nat) :
    BufferSystem.get_block fuel C7_state 3 4 = GetBlockOutcome.outOfFuel := by
  induction fuel with
  | zero => rfl
  | succ n ih => exact ih

/-- C7: the claim says that when acquire pops a DelayedWrite header from the
Free List, its payload is written to disk before the slot is re-keyed. The
code never pops the Free List at all and never calls the disk collaborator
from `get_block`: on a miss with the dirty header as the sole (LRU) Free List
entry, `get_block(3, 4)` removes nothing (identities differ), re-keys
nothing, flushes nothing, and loops forever for every fuel bound. -/
theorem C7_delayed_write_victim_never_flushed (fuel : Nat) :
    (C7_state.arena.getD 0 BufferHeader.default).status =
      BufferStatus.DelayedWriteToDisk ∧
    C7_state.free_list = [0] ∧
    C7_state.disk_data = "" ∧
    BufferSystem.get_block fuel C7_state 3 4 = GetBlockOutcome.outOfFuel :=
  ⟨rfl, rfl, rfl, C7_get_block_loops fuel⟩

/-- C8 counterexample: the claim quantifies over every `num_buckets` fixed at
construction, but with `num_buckets = 0` the hasher's `message % positions`
is a division by zero — a Rust panic, modelled as `none` — so the hash is not
total. -/
theorem C8_counterexample_zero_buckets :
    BufferHashQueue.hash_nums (BufferHashQueue.new 0) 0 0 = none :=
  rfl

/-- C8 (amended): for every `device_id`, `block_id` and every
`num_buckets ≥ 1`, the hash (whose 64-bit sum wraps mod `2 ^ 64`) succeeds
and returns a bucket index strictly below `num_buckets`; determinism is
immediate since the model is a pure function of its arguments. -/
theorem C8_amended_hash_total_in_range (device_num block_num number_of_queues : Nat)
    (qs : List (List Nat)) (h : 0 < number_of_queues) :
    ∃ i, BufferHashQueue.hash_nums
        { number_of_queues := number_of_queues, my_queues := qs }
        device_num block_num = some i ∧ i < number_of_queues := by
  have hne : number_of_queues ≠ 0 := Nat.pos_iff_ne_zero.mp h
  refine ⟨((u64_to_be_bytes ((block_num + device_num) % 2 ^ 64)).foldl
      (fun message byte => message + byte) 0) % number_of_queues, ?_, Nat.mod_lt _ h⟩
  simp only [BufferHashQueue.hash_nums, BufferHasher.write, if_neg hne]

theorem C8_witness :
    ∃ i, BufferHashQueue.hash_nums
        { number_of_queues := 4, my_queues := [] } 1 2 = some i ∧ i < 4 :=
  C8_amended_hash_total_in_range 1 2 4 [] (by decide)

/-- C9 counterexample: the claim says the hash is the exact integer sum of
the identifiers reduced mod `num_buckets`. With `num_buckets = 1000`,
`device_id = 0`, `block_id = 256` that would be 256, but the code hashes the
BYTES of the big-endian encoding of the sum, giving 1. -/
theorem C9_counterexample_byte_sum :
    BufferHashQueue.hash_nums (BufferHashQueue.new 1000) 0 256 = some 1 ∧
    (0 + 256) % 1000 = 256 ∧ (1 : Nat) ≠ 256 :=
  ⟨rfl, by decide, by decide⟩

/-- C9 (amended): for `num_buckets ≥ 1` the hash equals the sum of the eight
big-endian base-256 digits of the wrapping 64-bit sum
`block_id + device_id`, reduced mod `num_buckets` — a digit sum, not the
integer sum the spec names. -/
theorem C9_amended_hash_is_digit_sum (device_num block_num number_of_queues : Nat)
    (qs : List (List Nat)) (h : 0 < number_of_queues) :
    BufferHashQueue.hash_nums
        { number_of_queues := number_of_queues, my_queues := qs }
        device_num block_num =
      some ((((block_num + device_num) % 2 ^ 64) / 256 ^ 7 % 256 +
             ((block_num + device_num) % 2 ^ 64) / 256 ^ 6 % 256 +
             ((block_num + device_num) % 2 ^ 64) / 256 ^ 5 % 256 +
             ((block_num + device_num) % 2 ^ 64) / 256 ^ 4 % 256 +
             ((block_num + device_num) % 2 ^ 64) / 256 ^ 3 % 256 +
             ((block_num + device_num) % 2 ^ 64) / 256 ^ 2 % 256 +
             ((block_num + device_num) % 2 ^ 64) / 256 ^ 1 % 256 +
             ((block_num + device_num) % 2 ^ 64) % 256) % number_of_queues) := by
  have hne : number_of_queues ≠ 0 := Nat.pos_iff_ne_zero.mp h
  simp only [BufferHashQueue.hash_nums, BufferHasher.write, u64_to_be_bytes,
    List.foldl, if_neg hne, Nat.zero_add]

theorem C9_witness :
    BufferHashQueue.hash_nums
        { number_of_queues := 1000, my_queues := [] } 0 256 =
      some ((((256 + 0) % 2 ^ 64) / 256 ^ 7 % 256 +
             ((256 + 0) % 2 ^ 64) / 256 ^ 6 % 256 +
             ((256 + 0) % 2 ^ 64) / 256 ^ 5 % 256 +
             ((256 + 0) % 2 ^ 64) / 256 ^ 4 % 256 +
             ((256 + 0) % 2 ^ 64) / 256 ^ 3 % 256 +
             ((256 + 0) % 2 ^ 64) / 256 ^ 2 % 256 +
             ((256 + 0) % 2 ^ 64) / 256 ^ 1 % 256 +
             ((256 + 0) % 2 ^ 64) % 256) % 1000) :=
  C9_amended_hash_is_digit_sum 0 256 1000 [] (by decide)

/-- C10: the claim says a freshly constructed index with `num_buckets > 0`
serves every lookup in-bounds with `None` and every insert in-bounds. The
code's constructor leaves the bucket vector at length zero
(`Vec::with_capacity`), so with one bucket requested, both the first lookup
and the first insert index out of bounds — a panic, not `None`/an append. -/
theorem C10_fresh_index_access_panics :
    (BufferHashQueue.new 1).number_of_queues = 1 ∧
    (BufferHashQueue.new 1).my_queues.length = 0 ∧
    BufferHashQueue.get_buffer [] (BufferHashQueue.new 1) 0 0 =
      Except.error "index out of bounds" ∧
    BufferHashQueue.add_buffer [BufferHeader.default] (BufferHashQueue.new 1) 0 =
      Except.error "index out of bounds" :=
  ⟨rfl, rfl, rfl, rfl⟩

end BufferCache
